import Mathlib

/-!
Verification of the XTRI gabarito OMR service (python_omr_service).

This file gives a shallow embedding, in Lean 4, of the decision logic of the
OMR (optical mark recognition) pipeline:

* `qr_reader_module.py` — sheet-code validation and the multi-strategy QR
  fallback loop;
* `xtri_gabarito_reader.py` — the Hough-based reader: marker detection,
  bubble-grid structuring, the per-question answer classifier and the
  `process_answer_sheet` pipeline;
* `app.py` — the legacy fixed-coordinate classifier `read_question`, the
  legacy pipeline `process_omr_legacy`, the orchestrator `process_omr`, the
  sheet-code generator and validator.

External library effects (OpenCV contour extraction, Hough circle detection,
pixel sampling in `analyze_bubble`, pyzbar decoding, `random.choice`,
`time.time`) are modelled as explicit inputs: the embedding covers every
computation the Python code performs downstream of those library calls.
Python floats are modelled as exact rationals; all float values compared by
the code under study are small decimal quantities for which binary-float and
rational comparison agree.
-/

attribute [local semireducible] Rat.add Rat.sub Rat.mul Rat.inv Rat.ofScientific

/-! ## Python truthiness for optional strings -/

/-- Truthiness of a Python value that is either `None` or a `str`:
`None` and the empty string are falsy, every other string is truthy. -/
def pyTruthyStr : Option String → Bool
  | some s => decide (s ≠ "")
  | none => false

/-! ## Sheet-code validation (`qr_reader_module.validate_sheet_code`,
identical copy in `app.validate_sheet_code`) -/

/-- Membership in the regex character class of the sheet-code pattern:
uppercase letters A to Z, or digits 2 to 9. -/
def patternChar (c : Char) : Bool :=
  (decide ('A' ≤ c) && decide (c ≤ 'Z')) || (decide ('2' ≤ c) && decide (c ≤ '9'))

/-- Full match of the body of the sheet-code regular expression against a
character list: literal prefix XTRI-, then exactly six `patternChar`
characters (total length 11). -/
def sheetCodeMatch (cs : List Char) : Bool :=
  decide (cs.length = 11) && decide (cs.take 5 = ['X', 'T', 'R', 'I', '-']) &&
    (cs.drop 5).all patternChar

/-- Embeds `validate_sheet_code` from `qr_reader_module.py` (the copy in
`app.py` is textually identical): `if not code: return False` followed by
`bool(SHEET_CODE_PATTERN.match(code))`.  The Python pattern is anchored with
a caret and a dollar; under Python `re` semantics the dollar matches at the
end of the string or just before a single newline at the end of the string,
so the regex accepts both an exact match and an exact match followed by one
trailing newline. -/
def validate_sheet_code (code : String) : Bool :=
  if code = "" then false
  else
    sheetCodeMatch code.toList ||
      (match code.toList.getLast? with
       | some c => decide (c = '\n') && sheetCodeMatch code.toList.dropLast
       | none => false)

/-! ## QR fallback loop (`qr_reader_module.read_qr_with_fallback`) -/

/-- Result dictionary of `read_qr_with_fallback`. -/
structure QRResult where
  success : Bool
  sheet_code : Option String
  method : Option String
  valid : Bool
deriving DecidableEq, Repr

/-- The attempt loop inside `read_qr_with_fallback`: walk the ordered method
list; on the first attempt whose decode result is truthy (a non-empty
string), return success with that code, the method name and the validity
flag; if no attempt is truthy, return the failure record.  Each decode
attempt is an external pyzbar call, modelled as `Option String` (an attempt
that raised an exception is modelled the same as one returning `None`, since
the Python loop catches and continues). -/
def qrAttemptLoop : List (String × Option String) → QRResult
  | [] => ⟨false, none, none, false⟩
  | (nm, res) :: rest =>
    match res with
    | some s => if s ≠ "" then ⟨true, some s, some nm, validate_sheet_code s⟩
                else qrAttemptLoop rest
    | none => qrAttemptLoop rest

/-- Embeds `read_qr_with_fallback`: the six decode attempts, in source order
roi, full, enhanced, binary, scaled_50, scaled_75, each modelled by its
externally produced decode result. -/
def read_qr_with_fallback (roi full enhanced binary scaled50 scaled75 : Option String) :
    QRResult :=
  qrAttemptLoop [("roi", roi), ("full", full), ("enhanced", enhanced), ("binary", binary),
    ("scaled_50", scaled50), ("scaled_75", scaled75)]

/-! ## Sheet-code generators -/

/-- Alphabet of `app.generate_sheet_code`: A to Z without I, O, L, plus the
digits 2 to 9. -/
def APP_CODE_CHARS : List Char := "ABCDEFGHJKMNPQRSTUVWXYZ23456789".toList

/-- Embeds `generate_sheet_code` from `app.py`.  The six `random.choice`
draws are modelled by the index function `pick`. -/
def generate_sheet_code (pick : Fin 6 → Fin APP_CODE_CHARS.length) : String :=
  String.mk (['X', 'T', 'R', 'I', '-'] ++
    (List.finRange 6).map fun i => APP_CODE_CHARS.get (pick i))

/-- Alphabet of `gabarito_generator.generate_sheet_code`:
`string.ascii_uppercase + string.digits`, that is the full A to Z followed
by the digits 0 to 9. -/
def GENERATOR_CHARS : List Char := "ABCDEFGHIJKLMNOPQRSTUVWXYZ0123456789".toList

/-- Embeds `generate_sheet_code` from `gabarito_generator.py` (renamed to
avoid the clash with the app.py function of the same name).  The six
`random.choice` draws are modelled by the index function `pick`. -/
def generate_sheet_code_pdf (pick : Fin 6 → Fin GENERATOR_CHARS.length) : String :=
  String.mk (['X', 'T', 'R', 'I', '-'] ++
    (List.finRange 6).map fun i => GENERATOR_CHARS.get (pick i))

/-! ## Spec-side rendering of the sheet-code shape -/

/-- Modelled from the spec: the claimed acceptance set of
`validate_sheet_code` — exactly the strings of the fixed structural form,
prefix XTRI, separator, then six characters from the pattern alphabet. -/
def specSheetCode (s : String) : Bool :=
  match s.toList with
  | 'X' :: 'T' :: 'R' :: 'I' :: '-' :: rest => decide (rest.length = 6) && rest.all patternChar
  | _ => false

/-! ## Stable sorting

Python `list.sort` / `sorted` are stable.  Any stable sort computes the same
function; we embed them as stable insertion sort, with `le` required to be
the boolean key comparison of the Python call site. -/

/-- Insert `a` into `l`, placing it before the first element `b` with
`le a b`.  When `le` is a total key comparison this preserves sortedness and
stability (the inserted element originally preceded every element of `l`). -/
def insertSorted (le : α → α → Bool) (a : α) : List α → List α
  | [] => [a]
  | b :: bs => if le a b then a :: b :: bs else b :: insertSorted le a bs

/-- Stable insertion sort with boolean comparison `le`. -/
def sortStable (le : α → α → Bool) : List α → List α
  | [] => []
  | a :: as => insertSorted le a (sortStable le as)

/-! ## Hough reader data (`xtri_gabarito_reader.py`) -/

/-- One candidate circle produced by `cv2.HoughCircles`, after the reader's
conversion of each coordinate with `int(...)`. -/
structure OmrCircle where
  x : ℤ
  y : ℤ
  r : ℤ
deriving DecidableEq, Repr

/-- The four marker centroids returned by `find_grid_markers`. -/
structure Markers where
  tl : ℤ × ℤ
  tr : ℤ × ℤ
  bl : ℤ × ℤ
  br : ℤ × ℤ
deriving DecidableEq, Repr

/-- One external contour as used by `find_grid_markers`: the value of
`cv2.contourArea(cnt)` (a float) and the bounding rectangle from
`cv2.boundingRect(cnt)`. -/
structure Contour where
  area : ℚ
  x : ℤ
  y : ℤ
  cw : ℤ
  ch : ℤ
deriving DecidableEq, Repr

/-- The resolution scale used throughout the reader:
`scale = max(w / 1240, h / 1754)`. -/
def readerScale (w h : ℕ) : ℚ := max ((w : ℚ) / 1240) ((h : ℚ) / 1754)

/-- Embeds `find_grid_markers` from `xtri_gabarito_reader.py`.  The contour
extraction (threshold at 80 plus `cv2.findContours`) is external and is
modelled by the `contours` input; everything from the area/aspect filter on
is computed here.  Python `int(...)` on a nonnegative float is `Int.floor`;
Python `//` is `Int.fdiv`. -/
def find_grid_markers (w h : ℕ) (contours : List Contour) : Option Markers :=
  let scale := readerScale w h
  let areaScale := scale * scale
  let minArea : ℤ := ⌊800 * areaScale⌋
  let maxArea : ℤ := ⌊2500 * areaScale⌋
  let candidates := contours.filterMap fun cnt =>
    if (minArea : ℚ) < cnt.area ∧ cnt.area < (maxArea : ℚ) then
      let aspect : ℚ := if cnt.ch > 0 then (cnt.cw : ℚ) / (cnt.ch : ℚ) else 0
      if (7 : ℚ) / 10 < aspect ∧ aspect < (14 : ℚ) / 10 then
        some (cnt.x + Int.fdiv cnt.cw 2, cnt.y + Int.fdiv cnt.ch 2)
      else none
    else none
  if candidates.length < 4 then none
  else
    let midY : ℚ := (h : ℚ) / 2
    let top := sortStable (fun a b => decide (a.1 ≤ b.1))
      (candidates.filter fun c => decide ((c.2 : ℚ) < midY))
    let bot := sortStable (fun a b => decide (a.1 ≤ b.1))
      (candidates.filter fun c => decide (¬ (c.2 : ℚ) < midY))
    if top.length < 2 ∨ bot.length < 2 then none
    else
      match top.head?, top.getLast?, bot.head?, bot.getLast? with
      | some tl, some tr, some bl, some br => some ⟨tl, tr, bl, br⟩
      | _, _, _, _ => none

/-- Sort circles by their y coordinate (`grid_circles.sort(key=lambda c: c[1])`). -/
def sortByY : List OmrCircle → List OmrCircle :=
  sortStable fun a b => decide (a.y ≤ b.y)

/-- Sort circles by their x coordinate (`sorted(current_row, key=lambda x: x[0])`). -/
def sortByX : List OmrCircle → List OmrCircle :=
  sortStable fun a b => decide (a.x ≤ b.x)

/-- Worker for `groupRows`: `currRev` holds the current row in reverse
(so its head is the most recently appended circle, Python's
`current_row[-1]`), `acc` the closed rows.  A circle starts a new row when
its y distance to the previous circle reaches the threshold; every closed
row, including the final one, is sorted by x. -/
def groupRowsAux (thr : ℤ) : List OmrCircle → List OmrCircle → List (List OmrCircle) →
    List (List OmrCircle)
  | [], currRev, acc => acc ++ [sortByX currRev.reverse]
  | c :: cs, currRev, acc =>
    match currRev with
    | [] => groupRowsAux thr cs [c] acc
    | prev :: _ =>
      if |c.y - prev.y| < thr then groupRowsAux thr cs (c :: currRev) acc
      else groupRowsAux thr cs [c] (acc ++ [sortByX currRev.reverse])

/-- The row-grouping loop of `detect_bubbles` (lines 166-175 of
`xtri_gabarito_reader.py`). -/
def groupRows (thr : ℤ) : List OmrCircle → List (List OmrCircle)
  | [] => []
  | c :: cs => groupRowsAux thr cs [c] []

/-- The five option labels, `OPTIONS = ['A', 'B', 'C', 'D', 'E']`. -/
def OPTIONS : List String := ["A", "B", "C", "D", "E"]

/-- One bubble position with its option label, as stored by `detect_bubbles`
in a question's `options` list. -/
structure OptPos where
  option : String
  x : ℤ
  y : ℤ
  r : ℤ
deriving DecidableEq, Repr

/-- One entry of the `bubble_positions` list of `detect_bubbles`. -/
structure QData where
  question : ℕ
  options : List OptPos
deriving DecidableEq, Repr

/-- The per-row question builder of `detect_bubbles`: a row with exactly 30
circles yields, for each of the 6 columns, question number
`col_idx * 15 + row_idx + 1` with the next 5 circles labelled A to E in x
order; any other row is skipped (`continue`). -/
def buildCell (p : ℕ × List OmrCircle) : List QData :=
  if p.2.length = 30 then
    (List.range 6).map fun colIdx =>
      { question := colIdx * 15 + p.1 + 1,
        options := (OPTIONS.zip ((p.2.drop (colIdx * 5)).take 5)).map fun oc =>
          { option := oc.1, x := oc.2.x, y := oc.2.y, r := oc.2.r } }
  else []

/-- The question structure built from the grouped rows (`enumerate(rows)`
plus `buildCell`). -/
def buildQuestions (rows : List (List OmrCircle)) : List QData :=
  rows.enum.flatMap buildCell

/-- Final ordering of `detect_bubbles`:
`bubble_positions.sort(key=lambda x: x['question'])`. -/
def sortByQuestion : List QData → List QData :=
  sortStable fun a b => decide (a.question ≤ b.question)

/-- The marker-bounded circle filter of `detect_bubbles` (`margin` scaled,
lower y bound without margin, exactly as in the source). -/
def gridFilter (w h : ℕ) (m : Markers) (circles : List OmrCircle) : List OmrCircle :=
  let margin : ℤ := ⌊20 * readerScale w h⌋
  circles.filter fun c =>
    decide (m.tl.1 - margin < c.x) && decide (c.x < m.tr.1 + margin) &&
      decide (m.tl.2 < c.y) && decide (c.y < m.bl.2 + margin)

/-- The grouped rows of `detect_bubbles`: the in-grid circles sorted by y and
grouped with the scaled row threshold `int(25 * scale)`. -/
def detectRows (w h : ℕ) (m : Markers) (circles : List OmrCircle) : List (List OmrCircle) :=
  groupRows ⌊25 * readerScale w h⌋ (sortByY (gridFilter w h m circles))

/-- Embeds `detect_bubbles` from `xtri_gabarito_reader.py`.  The Hough
transform itself is external; its output (already truncated to integers) is
the `circles` input.  Fewer than 400 in-grid circles, or a row count other
than 15, yield the empty list; otherwise the question structures are built
and sorted by question number. -/
def detect_bubbles (w h : ℕ) (circles : List OmrCircle) (m : Markers) : List QData :=
  let gridCircles := gridFilter w h m circles
  if gridCircles.length < 400 then []
  else
    let rows := detectRows w h m circles
    if rows.length ≠ 15 then []
    else sortByQuestion (buildQuestions rows)

/-! ## Answer classification (`xtri_gabarito_reader.detect_answer`) -/

/-- One option label paired with its measured darkness, an entry of the
`results` list of `detect_answer` (darkness already rounded to one decimal
by the source) and of the `options` list of `read_question`. -/
structure ScoredOpt where
  option : String
  darkness : ℚ
deriving DecidableEq, Repr

/-- Descending stable sort by darkness
(`results.sort(key=lambda r: r['darkness'], reverse=True)`). -/
def sortScoresDesc : List ScoredOpt → List ScoredOpt :=
  sortStable fun a b => decide (a.darkness ≥ b.darkness)

/-- `FILL_THRESHOLD = 40` of `xtri_gabarito_reader.py`. -/
def FILL_THRESHOLD : ℚ := 40

/-- The stats dictionary returned by `detect_answer` (the fields the caller
reads: best label, best darkness, diff, and presence of the double-mark
warning). -/
structure AnswerStats where
  best : String
  darkness : ℚ
  diff : ℚ
  warning : Bool
deriving DecidableEq, Repr

/-- Embeds `detect_answer` from `xtri_gabarito_reader.py`, as a function of
the five scored options (darkness measurement by `analyze_bubble` is pixel
sampling, external).  Blank when the best darkness is under the fill
threshold; double mark (answer `None` plus warning) when the second darkness
is within 5 points of the threshold and the difference is under 8; otherwise
the best label.  The catch-all branch is unreachable from the pipeline,
which always passes five options. -/
def detect_answer (scores : List ScoredOpt) : Option String × AnswerStats :=
  match sortScoresDesc scores with
  | best :: second :: _ =>
    let diff := best.darkness - second.darkness
    if best.darkness < FILL_THRESHOLD then
      (none, ⟨best.option, best.darkness, diff, false⟩)
    else if second.darkness ≥ FILL_THRESHOLD - 5 ∧ diff < 8 then
      (none, ⟨best.option, best.darkness, diff, true⟩)
    else
      (some best.option, ⟨best.option, best.darkness, diff, false⟩)
  | _ => (none, ⟨"", 0, 0, false⟩)

/-! ## The Hough pipeline (`xtri_gabarito_reader.process_answer_sheet`) -/

/-- The aggregate counters of `process_answer_sheet`. -/
structure Stats where
  answered : ℕ
  blank : ℕ
  double_marked : ℕ
deriving DecidableEq, Repr

/-- The result dictionary of `process_answer_sheet`. -/
structure SheetResult where
  success : Bool
  sheet_code : Option String
  answers : List (ℕ × Option String)
  stats : Stats
  error : Option String
deriving DecidableEq, Repr

/-- The scored options handed by the pipeline to `detect_answer` for one
question: each stored option position with its darkness, where `dark`
models `round(analyze_bubble(gray, x, y, r), 1)`. -/
def questionScores (dark : ℤ → ℤ → ℤ → ℚ) (q : QData) : List ScoredOpt :=
  q.options.map fun o => ⟨o.option, dark o.x o.y o.r⟩

/-- One iteration of the question loop of `process_answer_sheet`: record the
answer under the question number and bump exactly one of the three counters
(`if answer`, `elif` warning, `else` blank). -/
def classifyStep (dark : ℤ → ℤ → ℤ → ℚ) (st : List (ℕ × Option String) × Stats)
    (q : QData) : List (ℕ × Option String) × Stats :=
  let res := detect_answer (questionScores dark q)
  let answers := st.1 ++ [(q.question, res.1)]
  let stats :=
    if pyTruthyStr res.1 then
      { st.2 with answered := st.2.answered + 1 }
    else if res.2.warning then
      { st.2 with double_marked := st.2.double_marked + 1 }
    else
      { st.2 with blank := st.2.blank + 1 }
  (answers, stats)

/-- Embeds `process_answer_sheet` from `xtri_gabarito_reader.py`.  The
grayscale conversion is external; `qr` is the value of `read_qr_code(image)`
(an external pyzbar decode), `contours` feeds `find_grid_markers`, `circles`
feeds `detect_bubbles`, and `dark` is the external bubble-darkness
measurement.  Marker failure or a question count other than 90 yield a
failure record with empty answers and zero counters; otherwise every
question is classified. -/
def process_answer_sheet (w h : ℕ) (qr : Option String) (contours : List Contour)
    (circles : List OmrCircle) (dark : ℤ → ℤ → ℤ → ℚ) : SheetResult :=
  match find_grid_markers w h contours with
  | none => ⟨false, qr, [], ⟨0, 0, 0⟩, some "Marcadores do grid nao encontrados"⟩
  | some m =>
    let bubbles := detect_bubbles w h circles m
    if bubbles.length ≠ 90 then
      ⟨false, qr, [], ⟨0, 0, 0⟩, some "Mapeamento incorreto"⟩
    else
      let r := bubbles.foldl (classifyStep dark) ([], ⟨0, 0, 0⟩)
      ⟨true, qr, r.1, r.2, none⟩

/-! ## Legacy classifier and pipeline (`app.py`) -/

/-- `BLANK_THRESHOLD = 32.0` of `app.py`. -/
def BLANK_THRESHOLD : ℚ := 32

/-- `MARKED_THRESHOLD = 38.0` of `app.py`. -/
def MARKED_THRESHOLD : ℚ := 38

/-- `RELATIVE_DIFF = 4.0` of `app.py`. -/
def RELATIVE_DIFF : ℚ := 4

/-- `DOUBLE_MARK_DIFF = 4.0` of `app.py`. -/
def DOUBLE_MARK_DIFF : ℚ := 4

/-- The five labelled scores of one question: labels `chr(65 + i)` for the
five option indices with their darkness values.  This is exactly the
`options` list built by `read_question` (darkness measured externally by
`analyze_bubble_with_search`), and the same shape `questionScores` feeds to
`detect_answer` on a well-formed grid. -/
def optionScores (darks : Fin 5 → ℚ) : List ScoredOpt :=
  [⟨"A", darks 0⟩, ⟨"B", darks 1⟩, ⟨"C", darks 2⟩, ⟨"D", darks 3⟩, ⟨"E", darks 4⟩]

/-- Embeds `read_question` from `app.py` (its hierarchical decision,
downstream of the external darkness sampling): blank below the blank
threshold; `X` when best and second both clear the marked threshold (second
with tolerance 5) and the difference is under the double-mark delta; then
the three graduated single-letter branches; otherwise blank.  The catch-all
branch is unreachable (the list always has five entries). -/
def read_question (darks : Fin 5 → ℚ) : Option String :=
  match sortScoresDesc (optionScores darks) with
  | best :: second :: _ =>
    let diff := best.darkness - second.darkness
    if best.darkness < BLANK_THRESHOLD then none
    else if best.darkness ≥ MARKED_THRESHOLD ∧ second.darkness ≥ MARKED_THRESHOLD - 5 ∧
        diff < DOUBLE_MARK_DIFF then some "X"
    else if best.darkness ≥ MARKED_THRESHOLD ∧ diff ≥ RELATIVE_DIFF then some best.option
    else if diff ≥ RELATIVE_DIFF * 1.5 then some best.option
    else if best.darkness ≥ MARKED_THRESHOLD then some best.option
    else none
  | _ => none

/-- The result dictionary shared by `process_omr_legacy` and the converted
Hough result of `process_omr`. -/
structure OmrResult where
  answers : List (Option String)
  answered : ℕ
  blank : ℕ
  double_marked : ℕ
  elapsed_ms : ℚ
  method : String
deriving DecidableEq, Repr

/-- The answers list of `process_omr_legacy`: the column-major double loop
over the 6 columns and 15 rows, one `read_question` result per question.
`darkFn col row` gives the five darkness samples of the question at that
grid position. -/
def legacyAnswers (darkFn : ℕ → ℕ → Fin 5 → ℚ) : List (Option String) :=
  (List.range 6).flatMap fun colIdx =>
    (List.range 15).map fun rowIdx => read_question (darkFn colIdx rowIdx)

/-- The `answered` predicate of `process_omr_legacy`:
`a and a != 'X'` (truthy and not the double-mark sentinel). -/
def pyAnsweredP (a : Option String) : Bool :=
  match a with
  | some s => decide (s ≠ "") && decide (s ≠ "X")
  | none => false

/-- Embeds `process_omr_legacy` from `app.py`, downstream of the external
image operations (deskew, grayscale, CLAHE preprocessing) whose effect is
entirely captured by the darkness samples `darkFn`.  `elapsedMs` models the
wall-clock value `round((time.time() - start_time) * 1000, 2)`. -/
def process_omr_legacy (darkFn : ℕ → ℕ → Fin 5 → ℚ) (elapsedMs : ℚ) : OmrResult :=
  let answers := legacyAnswers darkFn
  { answers := answers,
    answered := answers.countP pyAnsweredP,
    blank := answers.countP fun a => a.isNone,
    double_marked := answers.countP fun a => decide (a = some "X"),
    elapsed_ms := elapsedMs,
    method := "legacy" }

/-- Embeds `process_omr` from `app.py` with the Hough reader available
(`USE_HOUGH_OMR`): run `process_answer_sheet`; on success convert the
answers dictionary to a list indexed by question 1 to 90 (`dict.get`, last
write wins) and return the Hough stats; otherwise fall back to
`process_omr_legacy`.  `elapsedMs` models the wall-clock elapsed measurement
of whichever branch returns. -/
def process_omr (w h : ℕ) (qr : Option String) (contours : List Contour)
    (circles : List OmrCircle) (dark : ℤ → ℤ → ℤ → ℚ)
    (legacyDark : ℕ → ℕ → Fin 5 → ℚ) (elapsedMs : ℚ) : OmrResult :=
  let r := process_answer_sheet w h qr contours circles dark
  if r.success then
    { answers := (List.range 90).map fun i => ((r.answers.reverse).lookup (i + 1)).join,
      answered := r.stats.answered,
      blank := r.stats.blank,
      double_marked := r.stats.double_marked,
      elapsed_ms := elapsedMs,
      method := "hough" }
  else process_omr_legacy legacyDark elapsedMs

/-- Erase the wall-clock field of an `OmrResult`, for stating which fields
are input-determined. -/
def clearElapsed (r : OmrResult) : OmrResult :=
  ⟨r.answers, r.answered, r.blank, r.double_marked, 0, r.method⟩

/-! ## A concrete well-formed input

A synthetic sheet at the reference resolution: four square marker contours
whose centroids match the measured marker positions, and a full 15 x 30 grid
of circles inside the marker-bounded region. -/

/-- Four square contours of area 900 at the template's marker positions. -/
def demoContours : List Contour :=
  [⟨900, 40, 450, 30, 30⟩, ⟨900, 1170, 450, 30, 30⟩,
   ⟨900, 40, 1125, 30, 30⟩, ⟨900, 1170, 1125, 30, 30⟩]

/-- The markers detected from `demoContours`. -/
def demoMarkers : Markers := ⟨(55, 465), (1185, 465), (55, 1140), (1185, 1140)⟩

/-- A full grid of 450 circles: 15 rows 41 pixels apart, 30 circles per row
30 pixels apart, all inside the marker-bounded region at the reference
resolution. -/
def demoCircles : List OmrCircle :=
  (List.range 15).flatMap fun row =>
    (List.range 30).map fun j => ⟨100 + 30 * j, 500 + 41 * row, 10⟩

/-- An all-light darkness measurement (every bubble empty). -/
def demoDark : ℤ → ℤ → ℤ → ℚ := fun _ _ _ => 0

/-- An all-light darkness measurement for the legacy grid. -/
def demoLegacyDark : ℕ → ℕ → Fin 5 → ℚ := fun _ _ _ => 0

/-! ## Lemmas about the stable sort -/

theorem insertSorted_perm (le : α → α → Bool) (a : α) (l : List α) :
    List.Perm (insertSorted le a l) (a :: l) := by
  induction l with
  | nil => exact List.Perm.refl _
  | cons b bs ih =>
    simp only [insertSorted]
    split
    · exact List.Perm.refl _
    · exact (List.Perm.cons b ih).trans (List.Perm.swap a b bs)

theorem sortStable_perm (le : α → α → Bool) (l : List α) :
    List.Perm (sortStable le l) l := by
  induction l with
  | nil => exact List.Perm.refl _
  | cons a as ih =>
    exact (insertSorted_perm le a (sortStable le as)).trans (List.Perm.cons a ih)

theorem sortStable_length (le : α → α → Bool) (l : List α) :
    (sortStable le l).length = l.length :=
  (sortStable_perm le l).length_eq

theorem sortStable_mem (le : α → α → Bool) (l : List α) (a : α) :
    a ∈ sortStable le l ↔ a ∈ l :=
  (sortStable_perm le l).mem_iff

/-! ## Lemmas about the question loop of `process_answer_sheet` -/

/-- Shorthand for the total of the three counters. -/
def statsSum (s : Stats) : ℕ := s.answered + s.blank + s.double_marked

theorem classifyStep_fst (dark : ℤ → ℤ → ℤ → ℚ) (acc : List (ℕ × Option String))
    (s : Stats) (q : QData) :
    (classifyStep dark (acc, s) q).1 =
      acc ++ [(q.question, (detect_answer (questionScores dark q)).1)] := rfl

theorem classifyStep_sum (dark : ℤ → ℤ → ℤ → ℚ) (acc : List (ℕ × Option String))
    (s : Stats) (q : QData) : statsSum (classifyStep dark (acc, s) q).2 = statsSum s + 1 := by
  simp only [classifyStep]
  split
  · simp only [statsSum]; omega
  · split
    · simp only [statsSum]; omega
    · simp only [statsSum]; omega

/-- The predicate under which one loop iteration bumps the double counter:
the answer is falsy and the stats carry the double-mark warning. -/
def doubleBumpP (dark : ℤ → ℤ → ℤ → ℚ) (q : QData) : Bool :=
  !(pyTruthyStr (detect_answer (questionScores dark q)).1) &&
    (detect_answer (questionScores dark q)).2.warning

theorem classifyStep_double (dark : ℤ → ℤ → ℤ → ℚ) (acc : List (ℕ × Option String))
    (s : Stats) (q : QData) :
    (classifyStep dark (acc, s) q).2.double_marked =
      s.double_marked + (if doubleBumpP dark q then 1 else 0) := by
  simp only [classifyStep, doubleBumpP]
  split
  · rename_i h1; simp [h1]
  · rename_i h1
    split
    · rename_i h2; simp [h1, h2]
    · rename_i h2; simp [h1, h2]

theorem classifyFold_fst (dark : ℤ → ℤ → ℤ → ℚ) (qs : List QData) :
    ∀ (acc : List (ℕ × Option String)) (s : Stats),
      (qs.foldl (classifyStep dark) (acc, s)).1 =
        acc ++ qs.map fun q => (q.question, (detect_answer (questionScores dark q)).1) := by
  induction qs with
  | nil => intro acc s; simp
  | cons q qs ih =>
    intro acc s
    simp only [List.foldl_cons, List.map_cons]
    have h := ih (classifyStep dark (acc, s) q).1 (classifyStep dark (acc, s) q).2
    rw [Prod.mk.eta] at h
    rw [h, classifyStep_fst]
    simp

theorem classifyFold_sum (dark : ℤ → ℤ → ℤ → ℚ) (qs : List QData) :
    ∀ (acc : List (ℕ × Option String)) (s : Stats),
      statsSum (qs.foldl (classifyStep dark) (acc, s)).2 = statsSum s + qs.length := by
  induction qs with
  | nil => intro acc s; simp
  | cons q qs ih =>
    intro acc s
    simp only [List.foldl_cons, List.length_cons]
    have h := ih (classifyStep dark (acc, s) q).1 (classifyStep dark (acc, s) q).2
    rw [Prod.mk.eta] at h
    rw [h, classifyStep_sum]
    omega

theorem classifyFold_double (dark : ℤ → ℤ → ℤ → ℚ) (qs : List QData) :
    ∀ (acc : List (ℕ × Option String)) (s : Stats),
      (qs.foldl (classifyStep dark) (acc, s)).2.double_marked =
        s.double_marked + qs.countP (doubleBumpP dark) := by
  induction qs with
  | nil => intro acc s; simp
  | cons q qs ih =>
    intro acc s
    simp only [List.foldl_cons, List.countP_cons]
    have h := ih (classifyStep dark (acc, s) q).1 (classifyStep dark (acc, s) q).2
    rw [Prod.mk.eta] at h
    rw [h, classifyStep_double]
    by_cases hb : doubleBumpP dark q = true
    · simp [hb]; omega
    · simp [hb]

/-! ## Lemmas about `buildQuestions` and `detect_bubbles` -/

theorem buildCell_length (p : ℕ × List OmrCircle) :
    (buildCell p).length = if p.2.length = 30 then 6 else 0 := by
  simp only [buildCell]
  split <;> simp

theorem buildQuestions_length_aux (rows : List (List OmrCircle)) :
    ∀ n : ℕ, ((List.enumFrom n rows).flatMap buildCell).length =
      6 * rows.countP fun r => decide (r.length = 30) := by
  induction rows with
  | nil => intro n; simp
  | cons r rs ih =>
    intro n
    simp only [List.enumFrom_cons, List.flatMap_cons, List.length_append, List.countP_cons,
      ih (n + 1), buildCell_length]
    by_cases hr : r.length = 30
    · simp [hr]; ring
    · simp [hr]

theorem buildQuestions_length (rows : List (List OmrCircle)) :
    (buildQuestions rows).length = 6 * rows.countP fun r => decide (r.length = 30) := by
  simpa [buildQuestions, List.enum] using buildQuestions_length_aux rows 0

theorem buildQuestions_mapQ_aux (rows : List (List OmrCircle)) :
    ∀ n : ℕ, (∀ r ∈ rows, r.length = 30) →
      ((List.enumFrom n rows).flatMap buildCell).map QData.question =
        (List.range' n rows.length).flatMap fun ri =>
          (List.range 6).map fun col => col * 15 + ri + 1 := by
  induction rows with
  | nil => intro n _; simp
  | cons r rs ih =>
    intro n hall
    have hr : r.length = 30 := hall r (by simp)
    simp only [List.enumFrom_cons, List.flatMap_cons, List.map_append, List.length_cons,
      List.range'_succ]
    rw [ih (n + 1) fun x hx => hall x (by simp [hx])]
    congr 1
    simp [buildCell, hr, List.map_map]

/-- The canonical question-number list a full grid produces (rows outer,
columns inner), which is a permutation of 1 to 90. -/
theorem canonical_questions_perm :
    List.Perm
      ((List.range' 0 15).flatMap fun ri => (List.range 6).map fun col => col * 15 + ri + 1)
      (List.range' 1 90) := by decide

theorem countP_lt_length_of_counterexample (p : α → Bool) {l : List α} {a : α}
    (ha : a ∈ l) (hpa : p a = false) : l.countP p < l.length := by
  rcases Nat.lt_or_ge (l.countP p) l.length with h | h
  · exact h
  · exfalso
    have := List.countP_eq_length.mp (Nat.le_antisymm (List.countP_le_length _) h) a ha
    rw [hpa] at this
    exact Bool.false_ne_true this

theorem detect_bubbles_length (w h : ℕ) (circles : List OmrCircle) (m : Markers) :
    (detect_bubbles w h circles m).length =
      if (gridFilter w h m circles).length < 400 then 0
      else if (detectRows w h m circles).length ≠ 15 then 0
      else 6 * (detectRows w h m circles).countP fun r => decide (r.length = 30) := by
  simp only [detect_bubbles]
  split
  · simp
  · split
    · simp
    · simp [sortByQuestion, sortStable_length, buildQuestions_length]

/-- A successful `detect_bubbles` run (90 questions) forces every structural
check to have passed: at least 400 in-grid circles, exactly 15 rows, and
every row with exactly 30 circles. -/
theorem detect_bubbles_structure (w h : ℕ) (circles : List OmrCircle) (m : Markers)
    (h90 : (detect_bubbles w h circles m).length = 90) :
    ¬ (gridFilter w h m circles).length < 400 ∧
      (detectRows w h m circles).length = 15 ∧
      ∀ r ∈ detectRows w h m circles, r.length = 30 := by
  rw [detect_bubbles_length] at h90
  by_cases h1 : (gridFilter w h m circles).length < 400
  · rw [if_pos h1] at h90; omega
  · rw [if_neg h1] at h90
    by_cases h2 : (detectRows w h m circles).length ≠ 15
    · rw [if_pos h2] at h90; omega
    · rw [if_neg h2] at h90
      push_neg at h2
      refine ⟨h1, h2, fun r hr => ?_⟩
      by_contra hbad
      have hlt := countP_lt_length_of_counterexample (fun r => decide (r.length = 30))
        hr (by simp [hbad])
      rw [h2] at hlt
      omega

/-- On a successful run the question numbers of `detect_bubbles` are a
permutation of 1 to 90. -/
theorem detect_bubbles_mapQ_perm (w h : ℕ) (circles : List OmrCircle) (m : Markers)
    (h90 : (detect_bubbles w h circles m).length = 90) :
    List.Perm ((detect_bubbles w h circles m).map QData.question) (List.range' 1 90) := by
  obtain ⟨h1, h2, h3⟩ := detect_bubbles_structure w h circles m h90
  have hb : detect_bubbles w h circles m =
      sortByQuestion (buildQuestions (detectRows w h m circles)) := by
    simp only [detect_bubbles]
    rw [if_neg h1, if_neg (by simp [h2])]
  rw [hb]
  have hperm := (sortStable_perm (fun a b => decide (a.question ≤ b.question))
    (buildQuestions (detectRows w h m circles))).map QData.question
  refine hperm.trans ?_
  have hthis := buildQuestions_mapQ_aux (detectRows w h m circles) 0 h3
  have henum : (detectRows w h m circles).enum =
      List.enumFrom 0 (detectRows w h m circles) := rfl
  rw [buildQuestions, henum, hthis, h2]
  exact canonical_questions_perm

/-! ## Success and failure structure of `process_answer_sheet` -/

theorem process_answer_sheet_success_eq (w h : ℕ) (qr : Option String)
    (contours : List Contour) (circles : List OmrCircle) (dark : ℤ → ℤ → ℤ → ℚ)
    (m : Markers) (hm : find_grid_markers w h contours = some m)
    (h90 : (detect_bubbles w h circles m).length = 90) :
    process_answer_sheet w h qr contours circles dark =
      ⟨true, qr,
        ((detect_bubbles w h circles m).foldl (classifyStep dark) ([], ⟨0, 0, 0⟩)).1,
        ((detect_bubbles w h circles m).foldl (classifyStep dark) ([], ⟨0, 0, 0⟩)).2,
        none⟩ := by
  simp only [process_answer_sheet, hm]
  rw [if_neg (by simp [h90])]

theorem process_answer_sheet_success_elim (w h : ℕ) (qr : Option String)
    (contours : List Contour) (circles : List OmrCircle) (dark : ℤ → ℤ → ℤ → ℚ)
    (hs : (process_answer_sheet w h qr contours circles dark).success = true) :
    ∃ m, find_grid_markers w h contours = some m ∧
      (detect_bubbles w h circles m).length = 90 := by
  cases hm : find_grid_markers w h contours with
  | none =>
    simp only [process_answer_sheet, hm] at hs
    exact absurd hs (by decide)
  | some m =>
    refine ⟨m, rfl, ?_⟩
    by_contra h90
    simp only [process_answer_sheet, hm] at hs
    rw [if_pos (by simpa using h90)] at hs
    simp at hs

/-! ## Ranges of the classifiers -/

theorem detect_answer_fst_cases (scores : List ScoredOpt) :
    (detect_answer scores).1 = none ∨
      ∃ o ∈ scores, (detect_answer scores).1 = some o.option := by
  cases hsort : sortScoresDesc scores with
  | nil => simp [detect_answer, hsort]
  | cons best rest =>
    cases rest with
    | nil => simp [detect_answer, hsort]
    | cons second rest2 =>
      have hmem : best ∈ scores := by
        rw [← sortStable_mem (fun a b => decide (a.darkness ≥ b.darkness)) scores best]
        rw [show sortStable (fun a b => decide (a.darkness ≥ b.darkness)) scores =
          sortScoresDesc scores from rfl, hsort]
        simp
      simp only [detect_answer, hsort]
      split
      · simp
      · split
        · simp
        · exact Or.inr ⟨best, hmem, rfl⟩

theorem read_question_cases (darks : Fin 5 → ℚ) :
    read_question darks = none ∨ read_question darks = some "X" ∨
      ∃ o ∈ optionScores darks, read_question darks = some o.option := by
  cases hsort : sortScoresDesc (optionScores darks) with
  | nil => simp [read_question, hsort]
  | cons best rest =>
    cases rest with
    | nil => simp [read_question, hsort]
    | cons second rest2 =>
      have hmem : best ∈ optionScores darks := by
        rw [← sortStable_mem (fun a b => decide (a.darkness ≥ b.darkness)) (optionScores darks) best]
        rw [show sortStable (fun a b => decide (a.darkness ≥ b.darkness)) (optionScores darks) =
          sortScoresDesc (optionScores darks) from rfl, hsort]
        simp
      simp only [read_question, hsort]
      split
      · simp
      · split
        · simp
        · split
          · exact Or.inr (Or.inr ⟨best, hmem, rfl⟩)
          · split
            · exact Or.inr (Or.inr ⟨best, hmem, rfl⟩)
            · split
              · exact Or.inr (Or.inr ⟨best, hmem, rfl⟩)
              · simp

/-- The label of every option built by `optionScores` is one of the five
letters. -/
theorem optionScores_labels (darks : Fin 5 → ℚ) (o : ScoredOpt)
    (ho : o ∈ optionScores darks) : o.option ∈ OPTIONS := by
  simp only [optionScores, List.mem_cons, List.not_mem_nil, or_false] at ho
  rcases ho with h | h | h | h | h <;> subst h <;> simp [OPTIONS]

/-- Exactly one of the three legacy counting predicates holds for every
value `read_question` can return. -/
theorem read_question_partition (darks : Fin 5 → ℚ) :
    ((pyAnsweredP (read_question darks)).toNat +
      ((read_question darks).isNone).toNat +
      (decide (read_question darks = some "X")).toNat) = 1 := by
  rcases read_question_cases darks with h | h | ⟨o, ho, h⟩
  · rw [h]; rfl
  · rw [h]; rfl
  · rw [h]
    have := optionScores_labels darks o ho
    simp only [OPTIONS, List.mem_cons, List.not_mem_nil, or_false] at this
    rcases this with h5 | h5 | h5 | h5 | h5 <;> rw [h5] <;> rfl

theorem countP_three_partition (l : List α) (p q r : α → Bool)
    (h : ∀ a ∈ l, (p a).toNat + (q a).toNat + (r a).toNat = 1) :
    l.countP p + l.countP q + l.countP r = l.length := by
  induction l with
  | nil => simp
  | cons a as ih =>
    have ha := h a (by simp)
    have has := ih fun b hb => h b (by simp [hb])
    simp only [List.countP_cons, List.length_cons]
    cases hp : p a <;> cases hq : q a <;> cases hr : r a <;>
      simp [hp, hq, hr] at ha ⊢ <;> omega

/-! ## Lemmas about the QR attempt loop -/

theorem qrAttemptLoop_hit (nm : String) (s : String) (hs : s ≠ "")
    (rest : List (String × Option String)) :
    qrAttemptLoop ((nm, some s) :: rest) =
      ⟨true, some s, some nm, validate_sheet_code s⟩ := by
  simp [qrAttemptLoop, hs]

theorem qrAttemptLoop_skip (nm : String) (res : Option String)
    (hres : pyTruthyStr res = false) (rest : List (String × Option String)) :
    qrAttemptLoop ((nm, res) :: rest) = qrAttemptLoop rest := by
  cases res with
  | none => rfl
  | some s =>
    simp only [pyTruthyStr, decide_eq_false_iff_not, not_not] at hres
    simp [qrAttemptLoop, hres]

theorem qrAttemptLoop_code_valid (ms : List (String × Option String)) (s : String)
    (h : (qrAttemptLoop ms).sheet_code = some s) :
    (qrAttemptLoop ms).success = true ∧
      (qrAttemptLoop ms).valid = validate_sheet_code s := by
  induction ms with
  | nil => simp [qrAttemptLoop] at h
  | cons p rest ih =>
    obtain ⟨nm, res⟩ := p
    cases res with
    | none => exact ih (by simpa [qrAttemptLoop] using h)
    | some t =>
      by_cases ht : t = ""
      · subst ht
        exact ih (by simpa [qrAttemptLoop] using h)
      · rw [qrAttemptLoop_hit nm t ht rest] at h ⊢
        simp only at h
        obtain rfl : t = s := by simpa using h
        exact ⟨rfl, rfl⟩

/-! ## Lemmas about sheet-code validation -/

theorem specSheetCode_eq_sheetCodeMatch (cs : List Char) :
    (match cs with
      | 'X' :: 'T' :: 'R' :: 'I' :: '-' :: rest =>
          decide (rest.length = 6) && rest.all patternChar
      | _ => false) = sheetCodeMatch cs := by
  split
  · rename_i rest
    simp only [sheetCodeMatch, List.length_cons, List.take_succ_cons, List.take_zero,
      List.drop_succ_cons, List.drop_zero]
    have h511 : (rest.length + 1 + 1 + 1 + 1 + 1 = 11) ↔ (rest.length = 6) := by omega
    by_cases h6 : rest.length = 6
    · simp [h6, h511.mpr h6]
    · simp [h6, fun hc => h6 (h511.mp hc)]
  · rename_i h
    symm
    by_contra hne
    have ht : sheetCodeMatch cs = true := by
      revert hne; cases sheetCodeMatch cs <;> simp
    simp only [sheetCodeMatch, Bool.and_eq_true, decide_eq_true_eq] at ht
    obtain ⟨⟨hlen, htake⟩, _⟩ := ht
    have hcs : cs = 'X' :: 'T' :: 'R' :: 'I' :: '-' :: cs.drop 5 := by
      conv_lhs => rw [← List.take_append_drop 5 cs]
      rw [htake]
      rfl
    exact h (cs.drop 5) hcs

theorem specSheetCode_iff (s : String) :
    specSheetCode s = true ↔ sheetCodeMatch s.toList = true := by
  rw [specSheetCode, specSheetCode_eq_sheetCodeMatch]

/-! ## Claim C8 -/

/-- C8, counterexample: the claim says `validate_sheet_code` accepts exactly
the strings of the fixed structural form (prefix XTRI, separator, six
pattern-alphabet characters), but the Python dollar anchor also matches just
before a trailing newline, so the 12-character string XTRI-A7B3C9 plus
newline is accepted although it is not of the structural form. -/
theorem c8_counterexample :
    validate_sheet_code "XTRI-A7B3C9\n" = true ∧ specSheetCode "XTRI-A7B3C9\n" = false := by
  constructor <;> decide

/-- C8, amended: `validate_sheet_code` accepts exactly the strings of the
fixed structural form, or such a string followed by one trailing newline
(the dollar-anchor artifact); in particular it rejects ABCD-234567 and
accepts XTRI-A7B3C9. -/
theorem c8_amended :
    (∀ s : String, validate_sheet_code s = true ↔
      (specSheetCode s = true ∨ ∃ t : String, s = t.push '\n' ∧ specSheetCode t = true)) ∧
    validate_sheet_code "ABCD-234567" = false ∧
    validate_sheet_code "XTRI-A7B3C9" = true := by
  refine ⟨fun s => ?_, by decide, by decide⟩
  by_cases hs : s = ""
  · subst hs
    simp only [validate_sheet_code, if_pos rfl]
    constructor
    · intro h; exact absurd h (by decide)
    · rintro (h | ⟨t, ht, _⟩)
      · exact absurd h (by decide)
      · have : ("" : String).toList = t.toList ++ ['\n'] := by rw [ht]; rfl
        simp at this
  · simp only [validate_sheet_code, if_neg hs, Bool.or_eq_true]
    constructor
    · rintro (h | h)
      · exact Or.inl ((specSheetCode_iff s).mpr h)
      · rcases hlast : s.toList.getLast? with _ | c
        · rw [hlast] at h; simp at h
        · rw [hlast] at h
          simp only [Bool.and_eq_true, decide_eq_true_eq] at h
          obtain ⟨rfl, hdrop⟩ := h
          refine Or.inr ⟨String.mk s.toList.dropLast, ?_, ?_⟩
          · have hne : s.toList ≠ [] := by
              intro hnil; rw [hnil] at hlast; exact absurd hlast (by decide)
            have hl : s.toList.getLast hne = '\n' := by
              have := List.getLast?_eq_getLast s.toList hne
              rw [hlast] at this
              exact (Option.some_injective _ this).symm
            have hdata : s.toList.dropLast ++ ['\n'] = s.toList := by
              conv_rhs => rw [← List.dropLast_append_getLast hne]
              rw [hl]
            show s = String.mk (s.toList.dropLast ++ ['\n'])
            rw [hdata]
            rfl
          · exact (specSheetCode_iff _).mpr (by simpa using hdrop)
    · rintro (h | ⟨t, rfl, ht⟩)
      · exact Or.inl ((specSheetCode_iff s).mp h)
      · refine Or.inr ?_
        have hlist : (t.push '\n').toList = t.toList ++ ['\n'] := rfl
        rw [hlist, List.getLast?_concat]
        simp only [Bool.and_eq_true, decide_eq_true_eq]
        refine ⟨trivial, ?_⟩
        rw [List.dropLast_concat]
        exact (specSheetCode_iff t).mp ht

/-! ## Claim C9 -/

/-- C9, evidence: every code of `app.generate_sheet_code` validates (its
alphabet avoids 0, 1, I, O, L), but `gabarito_generator.generate_sheet_code`
draws from the full A to Z plus 0 to 9 alphabet, and a draw of six zeros
produces XTRI-000000, which `validate_sheet_code` rejects. -/
theorem c9_evidence :
    (∀ pick : Fin 6 → Fin APP_CODE_CHARS.length,
      validate_sheet_code (generate_sheet_code pick) = true) ∧
    (∃ pick : Fin 6 → Fin GENERATOR_CHARS.length,
      generate_sheet_code_pdf pick = "XTRI-000000" ∧
        validate_sheet_code "XTRI-000000" = false) := by
  constructor
  · intro pick
    have hchars : ∀ i : Fin 6, patternChar (APP_CODE_CHARS.get (pick i)) = true := by
      intro i
      have hmem : APP_CODE_CHARS.get (pick i) ∈ APP_CODE_CHARS :=
        List.get_mem APP_CODE_CHARS (pick i).1 (pick i).2
      have hall : APP_CODE_CHARS.all patternChar = true := by decide
      exact List.all_eq_true.mp hall _ hmem
    have hne : generate_sheet_code pick ≠ "" := by
      intro hcon
      have : (generate_sheet_code pick).toList = [] := by rw [hcon]; rfl
      simp [generate_sheet_code] at this
    simp only [validate_sheet_code, if_neg hne, Bool.or_eq_true]
    refine Or.inl ?_
    have hlist : (generate_sheet_code pick).toList =
        ['X', 'T', 'R', 'I', '-'] ++ (List.finRange 6).map fun i => APP_CODE_CHARS.get (pick i) := rfl
    simp only [sheetCodeMatch, hlist, Bool.and_eq_true, decide_eq_true_eq]
    refine ⟨⟨by simp, ?_⟩, ?_⟩
    · rw [List.take_left' (by simp)]
    · rw [List.drop_left' (by simp)]
      exact List.all_eq_true.mpr fun c hc => by
        obtain ⟨i, _, rfl⟩ := List.mem_map.mp hc
        exact hchars i
  · exact ⟨fun _ => ⟨26, by decide⟩, by decide, by decide⟩

/-! ## Claim C6 -/

/-- C6: `read_qr_with_fallback` tries roi, full, enhanced, binary,
scaled 50, scaled 75 in exactly that order, stops at the first non-empty
decode, reports failure when all attempts are empty, and tags every decoded
code with its validity while still reporting success, so an
invalid-but-decoded code is returned for the caller to judge. -/
theorem c6_fallback_order :
    ∀ roi full enhanced binary scaled50 scaled75 : Option String,
      (∀ s, roi = some s → s ≠ "" →
        read_qr_with_fallback roi full enhanced binary scaled50 scaled75 =
          ⟨true, some s, some "roi", validate_sheet_code s⟩) ∧
      (pyTruthyStr roi = false → ∀ s, full = some s → s ≠ "" →
        read_qr_with_fallback roi full enhanced binary scaled50 scaled75 =
          ⟨true, some s, some "full", validate_sheet_code s⟩) ∧
      (pyTruthyStr roi = false → pyTruthyStr full = false →
        ∀ s, enhanced = some s → s ≠ "" →
        read_qr_with_fallback roi full enhanced binary scaled50 scaled75 =
          ⟨true, some s, some "enhanced", validate_sheet_code s⟩) ∧
      (pyTruthyStr roi = false → pyTruthyStr full = false → pyTruthyStr enhanced = false →
        ∀ s, binary = some s → s ≠ "" →
        read_qr_with_fallback roi full enhanced binary scaled50 scaled75 =
          ⟨true, some s, some "binary", validate_sheet_code s⟩) ∧
      (pyTruthyStr roi = false → pyTruthyStr full = false → pyTruthyStr enhanced = false →
        pyTruthyStr binary = false → ∀ s, scaled50 = some s → s ≠ "" →
        read_qr_with_fallback roi full enhanced binary scaled50 scaled75 =
          ⟨true, some s, some "scaled_50", validate_sheet_code s⟩) ∧
      (pyTruthyStr roi = false → pyTruthyStr full = false → pyTruthyStr enhanced = false →
        pyTruthyStr binary = false → pyTruthyStr scaled50 = false →
        ∀ s, scaled75 = some s → s ≠ "" →
        read_qr_with_fallback roi full enhanced binary scaled50 scaled75 =
          ⟨true, some s, some "scaled_75", validate_sheet_code s⟩) ∧
      (pyTruthyStr roi = false → pyTruthyStr full = false → pyTruthyStr enhanced = false →
        pyTruthyStr binary = false → pyTruthyStr scaled50 = false →
        pyTruthyStr scaled75 = false →
        read_qr_with_fallback roi full enhanced binary scaled50 scaled75 =
          ⟨false, none, none, false⟩) ∧
      (∀ s, (read_qr_with_fallback roi full enhanced binary scaled50 scaled75).sheet_code =
          some s →
        (read_qr_with_fallback roi full enhanced binary scaled50 scaled75).success = true ∧
        (read_qr_with_fallback roi full enhanced binary scaled50 scaled75).valid =
          validate_sheet_code s) := by
  intro roi full enhanced binary scaled50 scaled75
  refine ⟨?_, ?_, ?_, ?_, ?_, ?_, ?_, ?_⟩
  · rintro s rfl hs
    exact qrAttemptLoop_hit "roi" s hs _
  · rintro h1 s rfl hs
    rw [read_qr_with_fallback, qrAttemptLoop_skip _ _ h1]
    exact qrAttemptLoop_hit "full" s hs _
  · rintro h1 h2 s rfl hs
    rw [read_qr_with_fallback, qrAttemptLoop_skip _ _ h1, qrAttemptLoop_skip _ _ h2]
    exact qrAttemptLoop_hit "enhanced" s hs _
  · rintro h1 h2 h3 s rfl hs
    rw [read_qr_with_fallback, qrAttemptLoop_skip _ _ h1, qrAttemptLoop_skip _ _ h2,
      qrAttemptLoop_skip _ _ h3]
    exact qrAttemptLoop_hit "binary" s hs _
  · rintro h1 h2 h3 h4 s rfl hs
    rw [read_qr_with_fallback, qrAttemptLoop_skip _ _ h1, qrAttemptLoop_skip _ _ h2,
      qrAttemptLoop_skip _ _ h3, qrAttemptLoop_skip _ _ h4]
    exact qrAttemptLoop_hit "scaled_50" s hs _
  · rintro h1 h2 h3 h4 h5 s rfl hs
    rw [read_qr_with_fallback, qrAttemptLoop_skip _ _ h1, qrAttemptLoop_skip _ _ h2,
      qrAttemptLoop_skip _ _ h3, qrAttemptLoop_skip _ _ h4, qrAttemptLoop_skip _ _ h5]
    exact qrAttemptLoop_hit "scaled_75" s hs _
  · rintro h1 h2 h3 h4 h5 h6
    rw [read_qr_with_fallback, qrAttemptLoop_skip _ _ h1, qrAttemptLoop_skip _ _ h2,
      qrAttemptLoop_skip _ _ h3, qrAttemptLoop_skip _ _ h4, qrAttemptLoop_skip _ _ h5,
      qrAttemptLoop_skip _ _ h6]
    rfl
  · intro s h
    exact qrAttemptLoop_code_valid _ s h

/-- C6, witness: with the roi attempt empty and the full-image attempt
decoding the structurally invalid text ABCD-234567, the fallback returns
success with method full and the validity flag false. -/
theorem c6_fallback_order_witness :
    read_qr_with_fallback none (some "ABCD-234567") none none none none =
      ⟨true, some "ABCD-234567", some "full", validate_sheet_code "ABCD-234567"⟩ ∧
    validate_sheet_code "ABCD-234567" = false := by
  constructor
  · exact (c6_fallback_order none (some "ABCD-234567") none none none none).2.1
      (by decide) "ABCD-234567" rfl (by decide)
  · decide

/-! ## Further helper lemmas -/

theorem legacyAnswers_length (darkFn : ℕ → ℕ → Fin 5 → ℚ) :
    (legacyAnswers darkFn).length = 90 := by
  simp [legacyAnswers, Function.comp_def]

theorem legacyAnswers_mem (darkFn : ℕ → ℕ → Fin 5 → ℚ) (a : Option String)
    (ha : a ∈ legacyAnswers darkFn) : ∃ c r, a = read_question (darkFn c r) := by
  simp only [legacyAnswers, List.mem_flatMap, List.mem_map, List.mem_range] at ha
  obtain ⟨c, _, r, _, rfl⟩ := ha
  exact ⟨c, r, rfl⟩

/-- Every option label stored by `detect_bubbles` is one of the five
letters. -/
theorem detect_bubbles_labels (w h : ℕ) (circles : List OmrCircle) (m : Markers)
    (q : QData) (hq : q ∈ detect_bubbles w h circles m) (op : OptPos)
    (hop : op ∈ q.options) : op.option ∈ OPTIONS := by
  simp only [detect_bubbles] at hq
  split at hq
  · simp at hq
  · split at hq
    · simp at hq
    · rw [sortByQuestion, sortStable_mem] at hq
      simp only [buildQuestions, List.mem_flatMap] at hq
      obtain ⟨p, _, hcell⟩ := hq
      simp only [buildCell] at hcell
      split at hcell
      · simp only [List.mem_map, List.mem_range] at hcell
        obtain ⟨col, _, rfl⟩ := hcell
        simp only [List.mem_map] at hop
        obtain ⟨oc, hoc, rfl⟩ := hop
        exact (List.of_mem_zip hoc).1
      · simp at hcell

/-- The answer `detect_answer` produces for a question of `detect_bubbles`
is never the legacy double-mark sentinel. -/
theorem detect_answer_no_X (w h : ℕ) (circles : List OmrCircle) (m : Markers)
    (dark : ℤ → ℤ → ℤ → ℚ) (q : QData) (hq : q ∈ detect_bubbles w h circles m) :
    (detect_answer (questionScores dark q)).1 ≠ some "X" := by
  rcases detect_answer_fst_cases (questionScores dark q) with hres | ⟨o, ho, hres⟩
  · simp [hres]
  · rw [hres]
    simp only [questionScores, List.mem_map] at ho
    obtain ⟨op, hop, rfl⟩ := ho
    have := detect_bubbles_labels w h circles m q hq op hop
    simp only [OPTIONS, List.mem_cons, List.not_mem_nil, or_false] at this
    rcases this with h5 | h5 | h5 | h5 | h5 <;> simp [h5]

/-- Decomposition of the sorted five-score list. -/
theorem optionScores_sorted_shape (d : Fin 5 → ℚ) :
    ∃ b s rest, sortScoresDesc (optionScores d) = b :: s :: rest := by
  have hlen : (sortScoresDesc (optionScores d)).length = 5 := by
    rw [show sortScoresDesc (optionScores d) =
      sortStable (fun a b => decide (a.darkness ≥ b.darkness)) (optionScores d) from rfl,
      sortStable_length]
    rfl
  rcases hL : sortScoresDesc (optionScores d) with _ | ⟨b, _ | ⟨s, rest⟩⟩
  · rw [hL] at hlen; simp at hlen
  · rw [hL] at hlen; simp at hlen
  · exact ⟨b, s, rest, rfl⟩

theorem optionScores_sorted_labels (d : Fin 5 → ℚ) (o : ScoredOpt)
    (ho : o ∈ sortScoresDesc (optionScores d)) : o.option ∈ OPTIONS := by
  rw [show sortScoresDesc (optionScores d) =
    sortStable (fun a b => decide (a.darkness ≥ b.darkness)) (optionScores d) from rfl,
    sortStable_mem] at ho
  exact optionScores_labels d o ho

/-! ## Concrete demonstration facts -/

set_option maxRecDepth 600000 in
/-- The demo contours yield exactly the template marker positions. -/
theorem demo_markers_found : find_grid_markers 1240 1754 demoContours = some demoMarkers := by
  decide

set_option maxRecDepth 600000 in
/-- The demo circle grid structures into the full 90 questions. -/
theorem demo_bubbles_90 : (detect_bubbles 1240 1754 demoCircles demoMarkers).length = 90 := by
  decide

/-- The demo sheet is processed successfully. -/
theorem demo_success :
    (process_answer_sheet 1240 1754 none demoContours demoCircles demoDark).success = true := by
  rw [process_answer_sheet_success_eq 1240 1754 none demoContours demoCircles demoDark
    demoMarkers demo_markers_found demo_bubbles_90]

/-! ## Claim C1 -/

/-- C1: whenever recognition succeeds, the aggregate counts partition the 90
questions (answered + blank + double = 90) and the per-question answers
carry exactly one classification per question number 1 to 90 (their key
list is a permutation of 1..90); the legacy path always returns 90 answers
whose three counters also sum to 90. -/
theorem c1_counts_partition :
    (∀ (w h : ℕ) (qr : Option String) (contours : List Contour) (circles : List OmrCircle)
        (dark : ℤ → ℤ → ℤ → ℚ),
      (process_answer_sheet w h qr contours circles dark).success = true →
        (process_answer_sheet w h qr contours circles dark).stats.answered +
            (process_answer_sheet w h qr contours circles dark).stats.blank +
            (process_answer_sheet w h qr contours circles dark).stats.double_marked = 90 ∧
          List.Perm
            ((process_answer_sheet w h qr contours circles dark).answers.map Prod.fst)
            (List.range' 1 90)) ∧
    (∀ (darkFn : ℕ → ℕ → Fin 5 → ℚ) (e : ℚ),
      (process_omr_legacy darkFn e).answered + (process_omr_legacy darkFn e).blank +
          (process_omr_legacy darkFn e).double_marked = 90 ∧
        (process_omr_legacy darkFn e).answers.length = 90) := by
  constructor
  · intro w h qr contours circles dark hs
    obtain ⟨m, hm, h90⟩ := process_answer_sheet_success_elim w h qr contours circles dark hs
    rw [process_answer_sheet_success_eq w h qr contours circles dark m hm h90]
    constructor
    · have hsum := classifyFold_sum dark (detect_bubbles w h circles m) [] ⟨0, 0, 0⟩
      simp only [statsSum] at hsum
      simpa [h90] using hsum
    · rw [classifyFold_fst]
      simp only [List.nil_append, List.map_map]
      have hcomp : (Prod.fst ∘ fun q : QData =>
          (q.question, (detect_answer (questionScores dark q)).1)) = QData.question := rfl
      rw [hcomp]
      exact detect_bubbles_mapQ_perm w h circles m h90
  · intro darkFn e
    constructor
    · show (legacyAnswers darkFn).countP pyAnsweredP +
        (legacyAnswers darkFn).countP (fun a => a.isNone) +
        (legacyAnswers darkFn).countP (fun a => decide (a = some "X")) = 90
      rw [countP_three_partition (legacyAnswers darkFn) pyAnsweredP
        (fun a => a.isNone) (fun a => decide (a = some "X")) ?_,
        legacyAnswers_length]
      intro a ha
      obtain ⟨c, r, rfl⟩ := legacyAnswers_mem darkFn a ha
      exact read_question_partition (darkFn c r)
    · exact legacyAnswers_length darkFn

/-- C1, witness: the demo sheet succeeds and satisfies the partition. -/
theorem c1_counts_partition_witness :
    (process_answer_sheet 1240 1754 none demoContours demoCircles demoDark).stats.answered +
        (process_answer_sheet 1240 1754 none demoContours demoCircles demoDark).stats.blank +
        (process_answer_sheet 1240 1754 none demoContours demoCircles demoDark).stats.double_marked
        = 90 ∧
      List.Perm
        ((process_answer_sheet 1240 1754 none demoContours demoCircles demoDark).answers.map
          Prod.fst)
        (List.range' 1 90) :=
  c1_counts_partition.1 1240 1754 none demoContours demoCircles demoDark demo_success

/-! ## Claim C7 -/

/-- C7: when the identity decode yields no code, a structurally well-formed
sheet is still fully processed: success is true, all 90 questions are
classified (one entry per question number), and the identity field is
exactly `none`. -/
theorem c7_qr_failure_not_fatal :
    ∀ (w h : ℕ) (contours : List Contour) (circles : List OmrCircle)
      (dark : ℤ → ℤ → ℤ → ℚ) (m : Markers),
      find_grid_markers w h contours = some m →
      (detect_bubbles w h circles m).length = 90 →
      (process_answer_sheet w h none contours circles dark).success = true ∧
        (process_answer_sheet w h none contours circles dark).sheet_code = none ∧
        (process_answer_sheet w h none contours circles dark).answers.length = 90 ∧
        List.Perm
          ((process_answer_sheet w h none contours circles dark).answers.map Prod.fst)
          (List.range' 1 90) := by
  intro w h contours circles dark m hm h90
  rw [process_answer_sheet_success_eq w h none contours circles dark m hm h90]
  refine ⟨rfl, rfl, ?_, ?_⟩
  · rw [classifyFold_fst]
    simp [h90]
  · rw [classifyFold_fst]
    simp only [List.nil_append, List.map_map]
    have hcomp : (Prod.fst ∘ fun q : QData =>
        (q.question, (detect_answer (questionScores dark q)).1)) = QData.question := rfl
    rw [hcomp]
    exact detect_bubbles_mapQ_perm w h circles m h90

/-- C7, witness: the demo sheet with no QR code. -/
theorem c7_qr_failure_not_fatal_witness :
    (process_answer_sheet 1240 1754 none demoContours demoCircles demoDark).success = true ∧
      (process_answer_sheet 1240 1754 none demoContours demoCircles demoDark).sheet_code = none ∧
      (process_answer_sheet 1240 1754 none demoContours demoCircles demoDark).answers.length
        = 90 ∧
      List.Perm
        ((process_answer_sheet 1240 1754 none demoContours demoCircles demoDark).answers.map
          Prod.fst)
        (List.range' 1 90) :=
  c7_qr_failure_not_fatal 1240 1754 demoContours demoCircles demoDark demoMarkers
    demo_markers_found demo_bubbles_90

/-! ## Claim C2 -/

/-- C2: with markers found, if fewer than 400 circles fall inside the
marker-bounded region, or the circles do not group into exactly 15 rows, or
some row lacks exactly 30 circles, then the Hough path fails with no partial
per-question results (success false, answers empty) and `process_omr` falls
back to the legacy method on the same image. -/
theorem c2_structural_failure_fallback :
    ∀ (w h : ℕ) (qr : Option String) (contours : List Contour) (circles : List OmrCircle)
      (dark : ℤ → ℤ → ℤ → ℚ) (legacyDark : ℕ → ℕ → Fin 5 → ℚ) (e : ℚ) (m : Markers),
      find_grid_markers w h contours = some m →
      ((gridFilter w h m circles).length < 400 ∨
        (detectRows w h m circles).length ≠ 15 ∨
        ∃ r ∈ detectRows w h m circles, r.length ≠ 30) →
      (process_answer_sheet w h qr contours circles dark).success = false ∧
        (process_answer_sheet w h qr contours circles dark).answers = [] ∧
        process_omr w h qr contours circles dark legacyDark e =
          process_omr_legacy legacyDark e := by
  intro w h qr contours circles dark legacyDark e m hm hbad
  have h90 : (detect_bubbles w h circles m).length ≠ 90 := by
    intro hcon
    obtain ⟨h1, h2, h3⟩ := detect_bubbles_structure w h circles m hcon
    rcases hbad with hb | hb | ⟨r, hr, hb⟩
    · exact h1 hb
    · exact hb h2
    · exact hb (h3 r hr)
  have hfail : process_answer_sheet w h qr contours circles dark =
      ⟨false, qr, [], ⟨0, 0, 0⟩, some "Mapeamento incorreto"⟩ := by
    simp only [process_answer_sheet, hm]
    rw [if_pos h90]
  refine ⟨by rw [hfail], by rw [hfail], ?_⟩
  simp only [process_omr, hfail]
  rfl

/-- C2, witness: markers found but no circles at all (0 < 400 in-grid
circles): the Hough path fails and the orchestrator output coincides with
the legacy result. -/
theorem c2_structural_failure_fallback_witness :
    (process_answer_sheet 1240 1754 none demoContours [] demoDark).success = false ∧
      (process_answer_sheet 1240 1754 none demoContours [] demoDark).answers = [] ∧
      process_omr 1240 1754 none demoContours [] demoDark demoLegacyDark 5 =
        process_omr_legacy demoLegacyDark 5 :=
  c2_structural_failure_fallback 1240 1754 none demoContours [] demoDark demoLegacyDark 5
    demoMarkers demo_markers_found (Or.inl (by decide))

/-! ## Claim C10 -/

/-- C10: in the Hough reader, a double mark is recorded with answer `none`
exactly like a blank (the warning flag alone drives the separate counter),
the answers mapping never contains the legacy sentinel X, and on success the
double counter equals the number of questions whose warning flag fired with
a falsy answer. -/
theorem c10_double_blank_representation :
    (∀ scores : List ScoredOpt, (detect_answer scores).2.warning = true →
      (detect_answer scores).1 = none) ∧
    (∀ scores : List ScoredOpt, (detect_answer scores).2.darkness < FILL_THRESHOLD →
      (detect_answer scores).1 = none ∧ (detect_answer scores).2.warning = false) ∧
    (∀ (w h : ℕ) (qr : Option String) (contours : List Contour) (circles : List OmrCircle)
        (dark : ℤ → ℤ → ℤ → ℚ),
      ((process_answer_sheet w h qr contours circles dark).answers.all fun p =>
        decide (p.2 ≠ some "X")) = true) ∧
    (∀ (w h : ℕ) (qr : Option String) (contours : List Contour) (circles : List OmrCircle)
        (dark : ℤ → ℤ → ℤ → ℚ) (m : Markers),
      find_grid_markers w h contours = some m →
      (process_answer_sheet w h qr contours circles dark).success = true →
      (process_answer_sheet w h qr contours circles dark).stats.double_marked =
        (detect_bubbles w h circles m).countP (doubleBumpP dark)) := by
  refine ⟨?_, ?_, ?_, ?_⟩
  · intro scores hw
    cases hsort : sortScoresDesc scores with
    | nil => simp [detect_answer, hsort]
    | cons best rest =>
      cases rest with
      | nil => simp [detect_answer, hsort]
      | cons second rest2 =>
        simp only [detect_answer, hsort] at hw ⊢
        split at hw
        · simp at hw
        · split at hw
          · rename_i h1 h2
            rw [if_neg (by exact h1), if_pos h2]
          · simp at hw
  · intro scores hd
    cases hsort : sortScoresDesc scores with
    | nil => simp [detect_answer, hsort]
    | cons best rest =>
      cases rest with
      | nil => simp [detect_answer, hsort]
      | cons second rest2 =>
        simp only [detect_answer, hsort] at hd ⊢
        split at hd
        · rename_i h1
          rw [if_pos h1]
          exact ⟨rfl, rfl⟩
        · split at hd
          · rename_i h1 h2
            exact absurd hd h1
          · rename_i h1 h2
            exact absurd hd h1
  · intro w h qr contours circles dark
    cases hm : find_grid_markers w h contours with
    | none => simp [process_answer_sheet, hm]
    | some m =>
      by_cases h90 : (detect_bubbles w h circles m).length = 90
      · rw [process_answer_sheet_success_eq w h qr contours circles dark m hm h90]
        simp only [classifyFold_fst, List.nil_append]
        rw [List.all_eq_true]
        intro p hp
        simp only [List.mem_map] at hp
        obtain ⟨q, hq, rfl⟩ := hp
        simpa using detect_answer_no_X w h circles m dark q hq
      · simp only [process_answer_sheet, hm]
        rw [if_pos h90]
        simp
  · intro w h qr contours circles dark m hm hs
    obtain ⟨m2, hm2, h90⟩ := process_answer_sheet_success_elim w h qr contours circles dark hs
    rw [hm] at hm2
    obtain rfl : m = m2 := by injection hm2
    rw [process_answer_sheet_success_eq w h qr contours circles dark m hm h90]
    have := classifyFold_double dark (detect_bubbles w h circles m) [] ⟨0, 0, 0⟩
    simpa using this

/-- C10, witness: a concrete double mark (two options at 90) is stored as
`none`; a concrete blank (all zeros) is stored as `none` without warning;
on the demo sheet the double counter equals the warning count. -/
theorem c10_double_blank_representation_witness :
    (detect_answer (optionScores (fun k => if k = 0 ∨ k = 1 then (90 : ℚ) else 0))).1 = none ∧
      ((detect_answer (optionScores (fun _ => (0 : ℚ)))).1 = none ∧
        (detect_answer (optionScores (fun _ => (0 : ℚ)))).2.warning = false) ∧
      (process_answer_sheet 1240 1754 none demoContours demoCircles demoDark).stats.double_marked
        = (detect_bubbles 1240 1754 demoCircles demoMarkers).countP (doubleBumpP demoDark) :=
  ⟨c10_double_blank_representation.1 _ (by decide),
    c10_double_blank_representation.2.1 _ (by decide),
    c10_double_blank_representation.2.2.2 1240 1754 none demoContours demoCircles demoDark
      demoMarkers demo_markers_found demo_success⟩

/-! ## Claim C3 -/

/-- A test score vector with 100 at option `i` and 0 elsewhere. -/
def unitScores (i : Fin 5) : Fin 5 → ℚ := fun j => if j = i then 100 else 0

/-- A test score vector with 90 at options `i` and `j` and 0 elsewhere. -/
def doubleScores (i j : Fin 5) : Fin 5 → ℚ := fun k => if k = i ∨ k = j then 90 else 0

/-- The all-zero test score vector. -/
def zeroScores : Fin 5 → ℚ := fun _ => 0

/-- C3: one option at 100 percent and the rest at 0 yields that option's
letter; exactly two options at 90 percent (diff 0) and the rest at 0 yields
DOUBLE (answer `none` with warning in the Hough classifier, the X sentinel
in the legacy classifier); all five at 0 yields BLANK — in both
classifiers. -/
theorem c3_classifier_boundaries :
    (∀ i : Fin 5,
      (detect_answer (optionScores (unitScores i))).1 = some (OPTIONS.getD i "") ∧
        read_question (unitScores i) = some (OPTIONS.getD i "")) ∧
    (∀ i j : Fin 5, i ≠ j →
      (detect_answer (optionScores (doubleScores i j))).1 = none ∧
        (detect_answer (optionScores (doubleScores i j))).2.warning = true ∧
        read_question (doubleScores i j) = some "X") ∧
    ((detect_answer (optionScores zeroScores)).1 = none ∧
      (detect_answer (optionScores zeroScores)).2.warning = false ∧
      read_question zeroScores = none) := by
  refine ⟨by decide, by decide, by decide⟩

/-- C3, witness: options A and B both at 90 give DOUBLE in both
classifiers. -/
theorem c3_classifier_boundaries_witness :
    (detect_answer (optionScores (doubleScores 0 1))).1 = none ∧
      (detect_answer (optionScores (doubleScores 0 1))).2.warning = true ∧
      read_question (doubleScores 0 1) = some "X" :=
  c3_classifier_boundaries.2.1 0 1 (by decide)

/-! ## Claim C5 -/

/-- The best-scoring option of a score list (head of the descending sort). -/
def bestScore (scores : List ScoredOpt) : ScoredOpt :=
  (sortScoresDesc scores).headD ⟨"", 0⟩

/-- The second-best-scoring option of a score list. -/
def secondScore (scores : List ScoredOpt) : ScoredOpt :=
  ((sortScoresDesc scores).drop 1).headD ⟨"", 0⟩

/-- C5: on five labelled scores, each classifier reports DOUBLE exactly when
the question is not blank, best and second both clear the marked threshold
(second with the fixed tolerance of 5 below it) and the difference is under
the double-mark delta (8 in the Hough classifier, 4 in the legacy one); the
DOUBLE check precedes every single-letter branch, so a DOUBLE never carries
a letter. -/
theorem c5_double_precedence :
    ∀ d : Fin 5 → ℚ,
      (((detect_answer (optionScores d)).1 = none ∧
          (detect_answer (optionScores d)).2.warning = true) ↔
        (¬ (bestScore (optionScores d)).darkness < FILL_THRESHOLD ∧
          (secondScore (optionScores d)).darkness ≥ FILL_THRESHOLD - 5 ∧
          (bestScore (optionScores d)).darkness - (secondScore (optionScores d)).darkness
            < 8)) ∧
      (read_question d = some "X" ↔
        (¬ (bestScore (optionScores d)).darkness < BLANK_THRESHOLD ∧
          (bestScore (optionScores d)).darkness ≥ MARKED_THRESHOLD ∧
          (secondScore (optionScores d)).darkness ≥ MARKED_THRESHOLD - 5 ∧
          (bestScore (optionScores d)).darkness - (secondScore (optionScores d)).darkness
            < DOUBLE_MARK_DIFF)) := by
  intro d
  obtain ⟨b, s, rest, hL⟩ := optionScores_sorted_shape d
  have hbest : bestScore (optionScores d) = b := by rw [bestScore, hL]; rfl
  have hsecond : secondScore (optionScores d) = s := by rw [secondScore, hL]; rfl
  have hbX : b.option ≠ "X" := by
    have hmem : b ∈ sortScoresDesc (optionScores d) := by rw [hL]; simp
    have := optionScores_sorted_labels d b hmem
    simp only [OPTIONS, List.mem_cons, List.not_mem_nil, or_false] at this
    rcases this with h5 | h5 | h5 | h5 | h5 <;> simp [h5]
  rw [hbest, hsecond]
  constructor
  · simp only [detect_answer, hL]
    split
    · rename_i h1
      constructor
      · rintro ⟨_, hw⟩; exact absurd hw (by simp)
      · rintro ⟨hc, _⟩; exact absurd h1 hc
    · rename_i h1
      split
      · rename_i h2
        constructor
        · intro _; exact ⟨h1, h2.1, h2.2⟩
        · intro _; exact ⟨rfl, rfl⟩
      · rename_i h2
        constructor
        · rintro ⟨hc, _⟩; exact absurd hc (by simp)
        · rintro ⟨_, hs2, hd⟩; exact absurd ⟨hs2, hd⟩ h2
  · simp only [read_question, hL]
    split
    · rename_i h1
      constructor
      · intro hc; exact absurd hc (by simp)
      · rintro ⟨hc, _⟩; exact absurd h1 hc
    · rename_i h1
      split
      · rename_i h2
        constructor
        · intro _; exact ⟨h1, h2.1, h2.2.1, h2.2.2⟩
        · intro _; rfl
      · rename_i h2
        split
        · constructor
          · intro hc
            exact absurd (by injection hc) hbX
          · rintro ⟨_, hm, hs2, hd⟩; exact absurd ⟨hm, hs2, hd⟩ h2
        · split
          · constructor
            · intro hc
              exact absurd (by injection hc) hbX
            · rintro ⟨_, hm, hs2, hd⟩; exact absurd ⟨hm, hs2, hd⟩ h2
          · split
            · constructor
              · intro hc
                exact absurd (by injection hc) hbX
              · rintro ⟨_, hm, hs2, hd⟩; exact absurd ⟨hm, hs2, hd⟩ h2
            · constructor
              · intro hc; exact absurd hc (by simp)
              · rintro ⟨_, hm, hs2, hd⟩; exact absurd ⟨hm, hs2, hd⟩ h2

/-! ## Claim C4 -/

/-- C4, counterexample: the claim asks every field of the result of two
invocations on identical input to coincide, but the `elapsed_ms` field of
`process_omr` is a wall-clock measurement: two runs on the same image with
different clock readings differ. -/
theorem c4_counterexample :
    process_omr 0 0 none [] [] demoDark demoLegacyDark 1000 ≠
      process_omr 0 0 none [] [] demoDark demoLegacyDark 2000 := by
  decide

/-- C4, amended: on identical input raster and configuration two invocations
agree on every field except the wall-clock `elapsed_ms` field; the Hough
reader result (`process_answer_sheet`), which has no time field, is fully
input-determined. -/
theorem c4_determinism_amended :
    ∀ (w h : ℕ) (qr : Option String) (contours : List Contour) (circles : List OmrCircle)
      (dark : ℤ → ℤ → ℤ → ℚ) (legacyDark : ℕ → ℕ → Fin 5 → ℚ) (e1 e2 : ℚ),
      process_answer_sheet w h qr contours circles dark =
        process_answer_sheet w h qr contours circles dark ∧
      clearElapsed (process_omr w h qr contours circles dark legacyDark e1) =
        clearElapsed (process_omr w h qr contours circles dark legacyDark e2) := by
  intro w h qr contours circles dark legacyDark e1 e2
  refine ⟨rfl, ?_⟩
  simp only [process_omr]
  by_cases hsucc : (process_answer_sheet w h qr contours circles dark).success = true
  · simp [hsucc, clearElapsed]
  · simp [hsucc, clearElapsed, process_omr_legacy]
